import Mathlib

/-!
Shallow embedding of `api_server.py` (CrewAI Tool Wrapper API server).

The embedding models:
  * JSON-like parameter values (`Json`) as delivered by the HTTP layer
    (pydantic parses the request body, so parameter values are JSON values;
    JSON numbers are modelled as integers, since no behaviour we verify
    depends on fractional numbers);
  * the Python built-ins the source uses on those values (`str`, truthiness,
    `len`, slicing, `', '.join`, `json.dumps`), with Python exceptions
    modelled by `Except PyExc`;
  * the tool registry `TOOL_TO_CREW_MAPPING`;
  * the query synthesizer `convert_params_to_user_query`;
  * the result normalizer `parse_crewai_result` over a model of arbitrary
    Python values (`PyVal`);
  * the lazy flow-singleton cache `get_google_suite_flow` and the execute
    endpoint `execute_google_suite_tool`, with the external `GoogleSuiteFlow`
    constructor and its `kickoff` method passed in as oracle parameters,
    since that class lives outside this repository.
-/

set_option maxRecDepth 16384

namespace ApiServer

/-- JSON-like values, the shape of `params` entries after pydantic parses the
request body (`params : Dict[str, Any]`). Numbers are modelled as integers. -/
inductive Json where
  | null
  | bool (b : Bool)
  | num (n : Int)
  | str (s : String)
  | arr (elems : List Json)
  | obj (entries : List (String × Json))

/-- Escape a string body the way Python `repr` does inside the chosen quote
character `q`. Hex escapes for other control characters are not modelled;
no verified claim depends on them. -/
def pyEscape (q : Char) (s : String) : String :=
  s.data.foldl (fun acc c =>
    acc ++ (if c = '\\' then "\\\\"
      else if c = '\n' then "\\n"
      else if c = '\r' then "\\r"
      else if c = '\t' then "\\t"
      else if c = q then "\\" ++ String.singleton q
      else String.singleton c)) ""

/-- Python `repr` of a string: single quotes, unless the string contains a
single quote and no double quote. -/
def pyReprStr (s : String) : String :=
  if s.contains '\x27' && !s.contains '"' then
    "\"" ++ pyEscape '"' s ++ "\""
  else
    "\x27" ++ pyEscape '\x27' s ++ "\x27"

mutual

/-- Python `repr` of a JSON-like value. -/
def pyRepr : Json → String
  | .null => "None"
  | .bool b => if b then "True" else "False"
  | .num n => toString n
  | .str s => pyReprStr s
  | .arr xs => "[" ++ pyReprList xs ++ "]"
  | .obj kvs => "\x7b" ++ pyReprEntries kvs ++ "\x7d"

/-- Comma-separated `repr`s of list elements, as inside Python `repr` of a list. -/
def pyReprList : List Json → String
  | [] => ""
  | [x] => pyRepr x
  | x :: xs => pyRepr x ++ ", " ++ pyReprList xs

/-- Comma-separated `key: value` pairs, as inside Python `repr` of a dict. -/
def pyReprEntries : List (String × Json) → String
  | [] => ""
  | [(k, v)] => pyReprStr k ++ ": " ++ pyRepr v
  | (k, v) :: kvs => pyReprStr k ++ ": " ++ pyRepr v ++ ", " ++ pyReprEntries kvs

end

/-- Python `str` of a JSON-like value: identical to `repr` except on strings. -/
def pyStr (v : Json) : String :=
  match v with
  | .str s => s
  | v => pyRepr v

/-- Escape a string the way `json.dumps` does. The `\uXXXX` escaping of
non-ASCII and other control characters is not modelled; no verified claim
depends on it. -/
def jsonEscape (s : String) : String :=
  s.data.foldl (fun acc c =>
    acc ++ (if c = '\\' then "\\\\"
      else if c = '"' then "\\\""
      else if c = '\n' then "\\n"
      else if c = '\r' then "\\r"
      else if c = '\t' then "\\t"
      else String.singleton c)) ""

/-- A JSON string literal as produced by `json.dumps`. -/
def jsonQuote (s : String) : String :=
  "\"" ++ jsonEscape s ++ "\""

mutual

/-- `json.dumps` of a JSON-like value (default separators). The
`default=str` argument of the call in the source only matters for Python
values outside the JSON fragment, which cannot arrive through the parsed
request body. -/
def Json.dumps : Json → String
  | .null => "null"
  | .bool b => if b then "true" else "false"
  | .num n => toString n
  | .str s => jsonQuote s
  | .arr xs => "[" ++ Json.dumpsList xs ++ "]"
  | .obj kvs => "\x7b" ++ Json.dumpsEntries kvs ++ "\x7d"

/-- Comma-separated `json.dumps` of list elements. -/
def Json.dumpsList : List Json → String
  | [] => ""
  | [x] => Json.dumps x
  | x :: xs => Json.dumps x ++ ", " ++ Json.dumpsList xs

/-- Comma-separated `"key": value` pairs of `json.dumps` of a dict. -/
def Json.dumpsEntries : List (String × Json) → String
  | [] => ""
  | [(k, v)] => jsonQuote k ++ ": " ++ Json.dumps v
  | (k, v) :: kvs => jsonQuote k ++ ": " ++ Json.dumps v ++ ", " ++ Json.dumpsEntries kvs

end

/-- Python truthiness of a JSON-like value. -/
def pyTruthy : Json → Bool
  | .null => false
  | .bool b => b
  | .num n => n != 0
  | .str s => s != ""
  | .arr xs => !xs.isEmpty
  | .obj kvs => !kvs.isEmpty

/-- Python exceptions as they matter to the server: `ValueError` is caught by
a dedicated handler in the execute endpoint, everything else by the generic
handler. -/
inductive PyExc where
  | valueError (msg : String)
  | otherError (msg : String)
deriving DecidableEq

/-- Python `len`: defined for strings, lists and dicts, a `TypeError` otherwise. -/
def pyLen : Json → Except PyExc Nat
  | .str s => .ok s.length
  | .arr xs => .ok xs.length
  | .obj kvs => .ok kvs.length
  | .null => .error (.otherError "TypeError: object of type \x27NoneType\x27 has no len()")
  | .bool _ => .error (.otherError "TypeError: object of type \x27bool\x27 has no len()")
  | .num _ => .error (.otherError "TypeError: object of type \x27int\x27 has no len()")

/-- Python slicing `v[:n]`: defined for strings and lists, a `TypeError`
otherwise. -/
def pySliceTake (n : Nat) : Json → Except PyExc Json
  | .str s => .ok (.str (s.take n))
  | .arr xs => .ok (.arr (xs.take n))
  | .obj _ => .error (.otherError "TypeError: unhashable type: \x27slice\x27")
  | .null => .error (.otherError "TypeError: \x27NoneType\x27 object is not subscriptable")
  | .bool _ => .error (.otherError "TypeError: \x27bool\x27 object is not subscriptable")
  | .num _ => .error (.otherError "TypeError: \x27int\x27 object is not subscriptable")

/-- Python `', '.join(xs)`: every element must be a string, else `TypeError`. -/
def pyJoinComma : List Json → Except PyExc String
  | [] => .ok ""
  | [.str s] => .ok s
  | .str s :: xs => (pyJoinComma xs).map (fun rest => s ++ ", " ++ rest)
  | _ => .error (.otherError "TypeError: sequence item: expected str instance")

/-- Python `dict.get(k, d)` on a parameter mapping. -/
def dictGet (entries : List (String × Json)) (k : String) (d : Json) : Json :=
  match entries.find? (fun e => e.fst == k) with
  | some e => e.snd
  | none => d

/-- The static tool registry `TOOL_TO_CREW_MAPPING`. -/
def TOOL_TO_CREW_MAPPING : List (String × String) := [
  ("google_calendar_create", "EVENT_MANAGEMENT_FLOW"),
  ("google_calendar_list", "EVENT_MANAGEMENT_FLOW"),
  ("google_calendar_get", "EVENT_MANAGEMENT_FLOW"),
  ("google_calendar_update", "EVENT_MANAGEMENT_FLOW"),
  ("google_calendar_delete", "EVENT_MANAGEMENT_FLOW"),
  ("google_calendar_quick_add", "EVENT_MANAGEMENT_FLOW"),
  ("google_calendar_freebusy", "EVENT_MANAGEMENT_FLOW"),
  ("gmail_send", "EMAIL_MANAGEMENT_FLOW"),
  ("gmail_read", "EMAIL_MANAGEMENT_FLOW"),
  ("gmail_search", "EMAIL_MANAGEMENT_FLOW"),
  ("gmail_draft", "EMAIL_MANAGEMENT_FLOW"),
  ("gmail_labels", "EMAIL_MANAGEMENT_FLOW"),
  ("gmail_reply", "EMAIL_MANAGEMENT_FLOW"),
  ("google_drive_upload", "DRIVE_MANAGEMENT_FLOW"),
  ("google_drive_download", "DRIVE_MANAGEMENT_FLOW"),
  ("google_drive_list", "DRIVE_MANAGEMENT_FLOW"),
  ("google_drive_share", "DRIVE_MANAGEMENT_FLOW"),
  ("google_drive_create_folder", "DRIVE_MANAGEMENT_FLOW"),
  ("google_drive_move", "DRIVE_MANAGEMENT_FLOW"),
  ("google_drive_delete", "DRIVE_MANAGEMENT_FLOW"),
  ("google_sheets_read", "SHEETS_MANAGEMENT_FLOW"),
  ("google_sheets_write", "SHEETS_MANAGEMENT_FLOW"),
  ("google_sheets_update", "SHEETS_MANAGEMENT_FLOW"),
  ("google_sheets_append", "SHEETS_MANAGEMENT_FLOW"),
  ("google_docs_read", "DOCS_MANAGEMENT_FLOW"),
  ("google_docs_write", "DOCS_MANAGEMENT_FLOW"),
  ("google_docs_create", "DOCS_MANAGEMENT_FLOW")]

/-- The registry's tool identifiers, in registry order (`dict.keys()`). -/
def registryKeys : List String := TOOL_TO_CREW_MAPPING.map Prod.fst

/-- Registry lookup: `tool_id in TOOL_TO_CREW_MAPPING` and
`TOOL_TO_CREW_MAPPING.get(tool_id)` in one function. -/
def lookupTool (toolId : String) : Option String :=
  (TOOL_TO_CREW_MAPPING.find? (fun e => e.fst == toolId)).map Prod.snd

/-- Source line 337: the generic fallback sentence. -/
def fallbackSentence (tool_id : String) (params : List (String × Json)) : String :=
  "Execute " ++ tool_id ++ " with parameters: " ++ Json.dumps (.obj params)

/-- Source line 228: the optional attendees clause of `google_calendar_create`
(`', '.join(attendees) if isinstance(attendees, list) else attendees`). -/
def calendar_attendees_clause (q : String) (attendees : Json) : Except PyExc String :=
  if pyTruthy attendees then
    match attendees with
    | .arr xs => (pyJoinComma xs).map (fun joined => q ++ " with attendees: " ++ joined)
    | _ => .ok (q ++ " with attendees: " ++ pyStr attendees)
  else .ok q

/-- Source lines 211-229: the `google_calendar_create` formatting rule. -/
def query_google_calendar_create (params : List (String × Json)) : Except PyExc String :=
  let summary := dictGet params "summary" (.str "event")
  let start := dictGet params "start" (.obj [])
  let stop := dictGet params "end" (.obj [])
  let start_time : Json := match start with
    | .obj entries => dictGet entries "dateTime" (.str "")
    | _ => .str (pyStr start)
  let end_time : Json := match stop with
    | .obj entries => dictGet entries "dateTime" (.str "")
    | _ => .str (pyStr stop)
  let description := dictGet params "description" (.str "")
  let attendees := dictGet params "attendees" (.arr [])
  let q := "Create calendar event: " ++ pyStr summary
  let q := if pyTruthy start_time then q ++ " from " ++ pyStr start_time else q
  let q := if pyTruthy end_time then q ++ " to " ++ pyStr end_time else q
  let q := if pyTruthy description then q ++ " with description: " ++ pyStr description else q
  calendar_attendees_clause q attendees

/-- Source lines 231-235: the `google_calendar_list` formatting rule. -/
def query_google_calendar_list (params : List (String × Json)) : String :=
  let time_min := dictGet params "timeMin" (.str "now")
  let time_max := dictGet params "timeMax" (.str "future")
  let max_results := dictGet params "maxResults" (.num 10)
  "List calendar events from " ++ pyStr time_min ++ " to " ++ pyStr time_max ++
    ", maximum " ++ pyStr max_results ++ " results"

/-- Source lines 237-239: the `google_calendar_get` formatting rule. -/
def query_google_calendar_get (params : List (String × Json)) : String :=
  let event_id := dictGet params "eventId" (.str "")
  "Get calendar event with ID: " ++ pyStr event_id

/-- Source lines 241-244: the `google_calendar_update` formatting rule. -/
def query_google_calendar_update (params : List (String × Json)) : String :=
  let event_id := dictGet params "eventId" (.str "")
  let summary := dictGet params "summary" (.str "")
  "Update calendar event " ++ pyStr event_id ++ " with title: " ++ pyStr summary

/-- Source lines 246-248: the `google_calendar_delete` formatting rule. -/
def query_google_calendar_delete (params : List (String × Json)) : String :=
  let event_id := dictGet params "eventId" (.str "")
  "Delete calendar event with ID: " ++ pyStr event_id

/-- Source lines 259-260: the optional body clause of `gmail_send`, appended
only when `body` is truthy, with `body[:100]` plus an ellipsis when
`len(body) > 100`; `len` and slicing can raise `TypeError` on non-sized
values. -/
def gmail_send_body_clause (q : String) (body : Json) : Except PyExc String :=
  if pyTruthy body then
    match pyLen body with
    | .error e => .error e
    | .ok n =>
      if n > 100 then
        match pySliceTake 100 body with
        | .error e => .error e
        | .ok b => .ok (q ++ " and body: " ++ pyStr b ++ "...")
      else .ok (q ++ " and body: " ++ pyStr body)
  else .ok q

/-- Source lines 251-265 continued: the full `gmail_send` rule. -/
def query_gmail_send (params : List (String × Json)) : Except PyExc String :=
  let to_ := dictGet params "to" (.str "")
  let subject := dictGet params "subject" (.str "")
  let body := dictGet params "body" (.str "")
  let cc := dictGet params "cc" .null
  let bcc := dictGet params "bcc" .null
  let q := "Send email to " ++ pyStr to_ ++ " with subject \x27" ++ pyStr subject ++ "\x27"
  (gmail_send_body_clause q body).map (fun q2 =>
    let q3 := if pyTruthy cc then q2 ++ ", CC: " ++ pyStr cc else q2
    if pyTruthy bcc then q3 ++ ", BCC: " ++ pyStr bcc else q3)

/-- Source lines 267-271: the `gmail_read` formatting rule. -/
def query_gmail_read (params : List (String × Json)) : String :=
  let hours := dictGet params "hours" (.num 24)
  let unread_only := dictGet params "unread_only" (.bool true)
  let max_results := dictGet params "maxResults" (.num 10)
  "Read " ++ (if pyTruthy unread_only then "unread" else "recent") ++
    " emails from the last " ++ pyStr hours ++ " hours, maximum " ++
    pyStr max_results ++ " results"

/-- Source lines 273-275: the `gmail_search` formatting rule. -/
def query_gmail_search (params : List (String × Json)) : String :=
  let query_param := dictGet params "query" (.str "")
  "Search emails with query: " ++ pyStr query_param

/-- Source lines 277-281: the `gmail_reply` formatting rule. Note the source
always slices `reply_body[:100]` and always appends the ellipsis, with no
length test; slicing can raise `TypeError` on non-sliceable values. -/
def query_gmail_reply (params : List (String × Json)) : Except PyExc String :=
  let original_from := dictGet params "original_from_email" (.str "")
  let original_subject := dictGet params "original_subject" (.str "")
  let reply_body := dictGet params "reply_body" (.str "")
  (pySliceTake 100 reply_body).map (fun rb =>
    "Reply to email from " ++ pyStr original_from ++ " with subject \x27" ++
      pyStr original_subject ++ "\x27 and reply: " ++ pyStr rb ++ "...")

/-- Source lines 284-289: the `google_drive_upload` formatting rule
(`params.get('fileName') or params.get('name', 'file')`). -/
def query_google_drive_upload (params : List (String × Json)) : String :=
  let fn0 := dictGet params "fileName" .null
  let file_name := if pyTruthy fn0 then fn0 else dictGet params "name" (.str "file")
  let folder_id := dictGet params "folderId" (.str "")
  if pyTruthy folder_id then
    "Upload file " ++ pyStr file_name ++ " to Google Drive folder " ++ pyStr folder_id
  else
    "Upload file " ++ pyStr file_name ++ " to Google Drive"

/-- Source lines 291-298: the `google_drive_list` formatting rule. -/
def query_google_drive_list (params : List (String × Json)) : String :=
  let folder_id := dictGet params "folderId" (.str "")
  let query := dictGet params "query" (.str "")
  if pyTruthy query then
    "List files in Google Drive matching: " ++ pyStr query
  else if pyTruthy folder_id then
    "List files in Google Drive folder " ++ pyStr folder_id
  else
    "List files in Google Drive"

/-- Source lines 300-302: the `google_drive_download` formatting rule. -/
def query_google_drive_download (params : List (String × Json)) : String :=
  let file_id := dictGet params "fileId" (.str "")
  "Download file from Google Drive with ID: " ++ pyStr file_id

/-- Source lines 304-307: the `google_drive_share` formatting rule. -/
def query_google_drive_share (params : List (String × Json)) : String :=
  let file_id := dictGet params "fileId" (.str "")
  let email := dictGet params "email" (.str "")
  "Share Google Drive file " ++ pyStr file_id ++ " with " ++ pyStr email

/-- Source lines 309-314: the `google_drive_create_folder` formatting rule. -/
def query_google_drive_create_folder (params : List (String × Json)) : String :=
  let folder_name := dictGet params "name" (.str "New Folder")
  let parent_id := dictGet params "parentId" (.str "")
  if pyTruthy parent_id then
    "Create folder \x27" ++ pyStr folder_name ++ "\x27 in Google Drive folder " ++ pyStr parent_id
  else
    "Create folder \x27" ++ pyStr folder_name ++ "\x27 in Google Drive"

/-- Source lines 317-320: the `google_sheets_read` formatting rule. -/
def query_google_sheets_read (params : List (String × Json)) : String :=
  let spreadsheet_id := dictGet params "spreadsheetId" (.str "")
  let range_name := dictGet params "range" (.str "")
  "Read data from Google Sheets " ++ pyStr spreadsheet_id ++ " range " ++ pyStr range_name

/-- Source lines 322-325: the `google_sheets_write` formatting rule. -/
def query_google_sheets_write (params : List (String × Json)) : String :=
  let spreadsheet_id := dictGet params "spreadsheetId" (.str "")
  let range_name := dictGet params "range" (.str "")
  "Write data to Google Sheets " ++ pyStr spreadsheet_id ++ " range " ++ pyStr range_name

/-- Source lines 328-330: the `google_docs_read` formatting rule. -/
def query_google_docs_read (params : List (String × Json)) : String :=
  let document_id := dictGet params "documentId" (.str "")
  "Read Google Docs document " ++ pyStr document_id

/-- Source lines 332-334: the `google_docs_create` formatting rule. -/
def query_google_docs_create (params : List (String × Json)) : String :=
  let title := dictGet params "title" (.str "New Document")
  "Create Google Docs document with title: " ++ pyStr title

/-- Source lines 207-337: `convert_params_to_user_query`, dispatching over the
`if`/`elif` chain in source order, falling back to the generic sentence. -/
def convert_params_to_user_query (tool_id : String) (params : List (String × Json)) :
    Except PyExc String :=
  if tool_id == "google_calendar_create" then query_google_calendar_create params
  else if tool_id == "google_calendar_list" then .ok (query_google_calendar_list params)
  else if tool_id == "google_calendar_get" then .ok (query_google_calendar_get params)
  else if tool_id == "google_calendar_update" then .ok (query_google_calendar_update params)
  else if tool_id == "google_calendar_delete" then .ok (query_google_calendar_delete params)
  else if tool_id == "gmail_send" then query_gmail_send params
  else if tool_id == "gmail_read" then .ok (query_gmail_read params)
  else if tool_id == "gmail_search" then .ok (query_gmail_search params)
  else if tool_id == "gmail_reply" then query_gmail_reply params
  else if tool_id == "google_drive_upload" then .ok (query_google_drive_upload params)
  else if tool_id == "google_drive_list" then .ok (query_google_drive_list params)
  else if tool_id == "google_drive_download" then .ok (query_google_drive_download params)
  else if tool_id == "google_drive_share" then .ok (query_google_drive_share params)
  else if tool_id == "google_drive_create_folder" then .ok (query_google_drive_create_folder params)
  else if tool_id == "google_sheets_read" then .ok (query_google_sheets_read params)
  else if tool_id == "google_sheets_write" then .ok (query_google_sheets_write params)
  else if tool_id == "google_docs_read" then .ok (query_google_docs_read params)
  else if tool_id == "google_docs_create" then .ok (query_google_docs_create params)
  else .ok (fallbackSentence tool_id params)

/-- The 18 tool identifiers that have a dedicated branch in
`convert_params_to_user_query`, in dispatch order. -/
def handledToolIds : List String :=
  ["google_calendar_create", "google_calendar_list", "google_calendar_get",
   "google_calendar_update", "google_calendar_delete", "gmail_send", "gmail_read",
   "gmail_search", "gmail_reply", "google_drive_upload", "google_drive_list",
   "google_drive_download", "google_drive_share", "google_drive_create_folder",
   "google_sheets_read", "google_sheets_write", "google_docs_read", "google_docs_create"]

/-- Model of an arbitrary Python value returned by the external flow, shaped
by exactly the probes `parse_crewai_result` performs: a `str`; an object with
a `response` attribute (with `selfStr` its `str()` form); a `dict`; an object
with a `__dict__` of attributes; `None`; or anything else, carrying its
`str()` form and its truthiness. -/
inductive PyVal where
  | str (s : String)
  | objWithResponse (resp : PyVal) (selfStr : String)
  | dict (entries : List (String × PyVal))
  | objWithAttrs (attrs : List (String × PyVal)) (selfStr : String)
  | pyNone
  | other (selfStr : String) (truthy : Bool)

mutual

/-- Python `repr` of a `PyVal`; for opaque objects their string form stands in
for their `repr`, which no verified claim depends on. -/
def pyValRepr : PyVal → String
  | .str s => pyReprStr s
  | .dict entries => "\x7b" ++ pyValReprEntries entries ++ "\x7d"
  | .objWithResponse _ selfStr => selfStr
  | .objWithAttrs _ selfStr => selfStr
  | .pyNone => "None"
  | .other selfStr _ => selfStr

/-- Comma-separated `key: value` pairs inside Python `repr` of a dict of
`PyVal`s. -/
def pyValReprEntries : List (String × PyVal) → String
  | [] => ""
  | [(k, v)] => pyReprStr k ++ ": " ++ pyValRepr v
  | (k, v) :: rest => pyReprStr k ++ ": " ++ pyValRepr v ++ ", " ++ pyValReprEntries rest

end

/-- Python `str` of a `PyVal`. -/
def pyValStr (v : PyVal) : String :=
  match v with
  | .str s => s
  | v => pyValRepr v

/-- Python truthiness of a `PyVal`: strings and dicts by emptiness, `None`
falsy, plain objects truthy. -/
def pyValTruthy : PyVal → Bool
  | .str s => s != ""
  | .dict entries => !entries.isEmpty
  | .pyNone => false
  | .objWithResponse _ _ => true
  | .objWithAttrs _ _ => true
  | .other _ t => t

/-- Source lines 343-374: `parse_crewai_result`, the result normalizer. The
returned value is the Python dict it builds (or passes through). -/
def parse_crewai_result (result : PyVal) : List (String × PyVal) :=
  match result with
  | .str s =>
      [("data", .str s), ("status", .str "success"), ("message", .str s)]
  | .objWithResponse resp selfStr =>
      let response_str := if pyValTruthy resp then pyValStr resp else selfStr
      [("data", .str response_str), ("status", .str "success"), ("message", .str response_str)]
  | .dict entries => entries
  | .objWithAttrs attrs selfStr =>
      [("data", .dict attrs), ("status", .str "success"), ("message", .str selfStr)]
  | .pyNone =>
      [("data", .str "None"), ("status", .str "success"), ("message", .str "None")]
  | .other selfStr _ =>
      [("data", .str selfStr), ("status", .str "success"), ("message", .str selfStr)]

/-- Modelled from the spec: the external orchestration-flow object
(`GoogleSuiteFlow`, imported from outside this repository). Only its
construction arguments are visible to the server; its behavior is supplied
as oracle parameters (`construct` for the class constructor, `kickoff` for
the `invoke` contract) wherever it is used. -/
structure GoogleSuiteFlow where
  name : String
  api_key : String
deriving DecidableEq

/-- The fixed argument bundle passed to `flow.kickoff(inputs=...)`. -/
structure KickoffInputs where
  user_query : String
  crew_name : String
  flow_name : String
deriving DecidableEq

/-- Process environment, as read by `os.getenv`. -/
abbrev Env := List (String × String)

/-- `os.getenv`: `none` when the variable is unset. -/
def envGet (env : Env) (k : String) : Option String :=
  (env.find? (fun e => e.fst == k)).map Prod.snd

/-- The module-level `_flow_cache` dict. -/
abbrev FlowCache := List (String × GoogleSuiteFlow)

/-- Dictionary lookup in the flow cache. -/
def cacheGet (cache : FlowCache) (k : String) : Option GoogleSuiteFlow :=
  (cache.find? (fun e => e.fst == k)).map Prod.snd

/-- Source lines 165-201: `get_google_suite_flow`. Returns the result of the
call (a flow, or the raised `ValueError`) together with the cache afterwards.
`construct` is the oracle for the external `GoogleSuiteFlow(name, api_key)`
constructor; an exception it raises is re-raised as
`ValueError("Flow initialization failed: ...")`. -/
def get_google_suite_flow (construct : String → String → Except String GoogleSuiteFlow)
    (env : Env) (cache : FlowCache) :
    Except PyExc GoogleSuiteFlow × FlowCache :=
  let cache_key := "google_suite"
  match cacheGet cache cache_key with
  | some flow => (.ok flow, cache)
  | none =>
    match envGet env "OPENAI_API_KEY" with
    | none => (.error (.valueError "OPENAI_API_KEY not set in environment variables"), cache)
    | some api_key =>
      if api_key == "" then
        (.error (.valueError "OPENAI_API_KEY not set in environment variables"), cache)
      else
        match construct "Google Suite Flow" api_key with
        | .ok flow => (.ok flow, (cache_key, flow) :: cache)
        | .error e => (.error (.valueError ("Flow initialization failed: " ++ e)), cache)

/-- The body of `POST /api/tools/google-suite/execute` (`ToolExecuteRequest`).
`userQuery` is `Optional[str]`. -/
structure ToolExecuteRequest where
  toolId : String
  params : List (String × Json)
  userQuery : Option String

/-- The `metadata` field of a response. The `execution_time_seconds` and
`timestamp` entries of the success metadata are wall-clock values and are
outside the embedding. -/
inductive Metadata where
  | unknownTool (available_tools : List String)
  | withTraceback
  | execMeta (tool_id : String) (crew_name : String)

/-- The response model `ToolExecuteResponse`. -/
structure ToolExecuteResponse where
  success : Bool
  output : Option (List (String × PyVal))
  error : Option String
  metadata : Option Metadata

/-- The endpoint's exception handlers (source lines 491-509): `ValueError`
becomes a configuration error, any other exception the generic error with a
traceback in the metadata. Both are delivered as a normal response envelope
(HTTP success). -/
def handleException (toolId : String) (e : PyExc) : ToolExecuteResponse :=
  match e with
  | .valueError msg =>
      { success := false, output := none,
        error := some ("Configuration error: " ++ msg), metadata := none }
  | .otherError msg =>
      { success := false, output := none,
        error := some ("Error executing tool " ++ toolId ++ ": " ++ msg),
        metadata := some .withTraceback }

/-- Source lines 437-440: the user query is the caller-supplied one if truthy
(non-`None` and non-empty), otherwise the synthesized one. -/
def effectiveQuery (req : ToolExecuteRequest) : Except PyExc String :=
  match req.userQuery with
  | some q => if q == "" then convert_params_to_user_query req.toolId req.params else .ok q
  | none => convert_params_to_user_query req.toolId req.params

/-- The full observable outcome of one execute request: the response envelope,
the flow cache afterwards, and the list of flow invocations performed. -/
structure ExecOutcome where
  response : ToolExecuteResponse
  cache : FlowCache
  invocations : List (GoogleSuiteFlow × KickoffInputs)

/-- Source lines 399-509: `execute_google_suite_tool`. `kickoff` is the
oracle for `flow.kickoff(inputs=...)` (run in a worker thread; its result or
exception is propagated to the endpoint). -/
def execute_google_suite_tool
    (construct : String → String → Except String GoogleSuiteFlow)
    (kickoff : GoogleSuiteFlow → KickoffInputs → Except PyExc PyVal)
    (env : Env) (cache : FlowCache) (req : ToolExecuteRequest) : ExecOutcome :=
  if (lookupTool req.toolId).isNone then
    let error_msg := "Unknown tool ID: " ++ req.toolId ++ ". Available tools: " ++
      pyStr (.arr (registryKeys.map Json.str))
    let resp : ToolExecuteResponse :=
      { success := false, output := none, error := some error_msg,
        metadata := some (.unknownTool registryKeys) }
    { response := resp, cache := cache, invocations := [] }
  else
    match effectiveQuery req with
    | .error e =>
        { response := handleException req.toolId e, cache := cache, invocations := [] }
    | .ok user_query =>
      match get_google_suite_flow construct env cache with
      | (.error e, cache2) =>
          { response := handleException req.toolId e, cache := cache2, invocations := [] }
      | (.ok flow, cache2) =>
        match kickoff flow ⟨user_query, (lookupTool req.toolId).getD "GOOGLE_SUITE_FLOW",
            (lookupTool req.toolId).getD "GOOGLE_SUITE_FLOW"⟩ with
        | .error e =>
            { response := handleException req.toolId e, cache := cache2,
              invocations := [(flow, ⟨user_query, (lookupTool req.toolId).getD "GOOGLE_SUITE_FLOW",
                (lookupTool req.toolId).getD "GOOGLE_SUITE_FLOW"⟩)] }
        | .ok result =>
          let parsed := parse_crewai_result result
          let resp : ToolExecuteResponse :=
            { success := true, output := some parsed, error := none,
              metadata := some (.execMeta req.toolId
                ((lookupTool req.toolId).getD "GOOGLE_SUITE_FLOW")) }
          { response := resp, cache := cache2,
            invocations := [(flow, ⟨user_query, (lookupTool req.toolId).getD "GOOGLE_SUITE_FLOW",
              (lookupTool req.toolId).getD "GOOGLE_SUITE_FLOW"⟩)] }

instance {ε α : Type} [DecidableEq ε] [DecidableEq α] : DecidableEq (Except ε α) :=
  fun a b =>
  match a, b with
  | .ok x, .ok y =>
      if h : x = y then .isTrue (by rw [h]) else .isFalse (by intro hc; cases hc; exact h rfl)
  | .error x, .error y =>
      if h : x = y then .isTrue (by rw [h]) else .isFalse (by intro hc; cases hc; exact h rfl)
  | .ok _, .error _ => .isFalse (by intro hc; cases hc)
  | .error _, .ok _ => .isFalse (by intro hc; cases hc)

/-! ## Helper lemmas -/

lemma append_ne_empty_left (a b : String) (h : a ≠ "") : a ++ b ≠ "" := by
  intro hab
  apply h
  have hl : (a ++ b).length = 0 := by rw [hab]; rfl
  rw [String.length_append] at hl
  have ha : a.length = 0 := by omega
  cases a with
  | mk data =>
    cases data with
    | nil => rfl
    | cons c cs => simp [String.length] at ha

lemma calendar_attendees_clause_ne (q : String) (attendees : Json) (s : String)
    (h : calendar_attendees_clause q attendees = .ok s) (hq : q ≠ "") : s ≠ "" := by
  unfold calendar_attendees_clause at h
  by_cases ht : pyTruthy attendees = true
  · rw [if_pos ht] at h
    cases attendees
    · simp only [Except.ok.injEq] at h
      subst h
      exact append_ne_empty_left _ _ (append_ne_empty_left _ _ hq)
    · simp only [Except.ok.injEq] at h
      subst h
      exact append_ne_empty_left _ _ (append_ne_empty_left _ _ hq)
    · simp only [Except.ok.injEq] at h
      subst h
      exact append_ne_empty_left _ _ (append_ne_empty_left _ _ hq)
    · simp only [Except.ok.injEq] at h
      subst h
      exact append_ne_empty_left _ _ (append_ne_empty_left _ _ hq)
    · rename_i xs
      have h2 : Except.map (fun joined => q ++ " with attendees: " ++ joined)
          (pyJoinComma xs) = Except.ok s := h
      cases hj : pyJoinComma xs with
      | error e => rw [hj] at h2; cases h2
      | ok j =>
        rw [hj] at h2
        simp only [Except.map, Except.ok.injEq] at h2
        subst h2
        exact append_ne_empty_left _ _ (append_ne_empty_left _ _ hq)
    · simp only [Except.ok.injEq] at h
      subst h
      exact append_ne_empty_left _ _ (append_ne_empty_left _ _ hq)
  · rw [if_neg ht] at h
    simp only [Except.ok.injEq] at h
    subst h
    exact hq

lemma gmail_send_body_clause_ne (q : String) (body : Json) (s : String)
    (h : gmail_send_body_clause q body = .ok s) (hq : q ≠ "") : s ≠ "" := by
  unfold gmail_send_body_clause at h
  split at h
  · split at h
    · cases h
    · split at h
      · split at h
        · cases h
        · simp only [Except.ok.injEq] at h
          subst h
          exact append_ne_empty_left _ _ (append_ne_empty_left _ _ (append_ne_empty_left _ _ hq))
      · simp only [Except.ok.injEq] at h
        subst h
        exact append_ne_empty_left _ _ (append_ne_empty_left _ _ hq)
  · simp only [Except.ok.injEq] at h
    subst h
    exact hq

lemma query_google_calendar_create_ne (params : List (String × Json)) (s : String)
    (h : query_google_calendar_create params = .ok s) : s ≠ "" := by
  simp only [query_google_calendar_create] at h
  refine calendar_attendees_clause_ne _ _ _ h ?_
  repeat' first | apply append_ne_empty_left | split
  all_goals decide

lemma gmail_send_tail_ne (cc bcc : Json) (W : Except PyExc String) (s : String)
    (hW : ∀ t, W = .ok t → t ≠ "")
    (h : W.map (fun q2 =>
      let q3 := if pyTruthy cc then q2 ++ ", CC: " ++ pyStr cc else q2
      if pyTruthy bcc then q3 ++ ", BCC: " ++ pyStr bcc else q3) = .ok s) : s ≠ "" := by
  cases W with
  | error e => cases h
  | ok t =>
    simp only [Except.map, Except.ok.injEq] at h
    subst h
    have ht := hW t rfl
    repeat' first | apply append_ne_empty_left | split
    all_goals exact ht

lemma query_gmail_send_ne (params : List (String × Json)) (s : String)
    (h : query_gmail_send params = .ok s) : s ≠ "" := by
  simp only [query_gmail_send] at h
  refine gmail_send_tail_ne _ _ _ _ ?_ h
  intro t ht
  refine gmail_send_body_clause_ne _ _ _ ht ?_
  repeat' apply append_ne_empty_left
  decide

lemma query_gmail_reply_ne (params : List (String × Json)) (s : String)
    (h : query_gmail_reply params = .ok s) : s ≠ "" := by
  simp only [query_gmail_reply] at h
  cases hr : pySliceTake 100 (dictGet params "reply_body" (Json.str "")) with
  | error e => rw [hr] at h; cases h
  | ok rb =>
    rw [hr] at h
    simp only [Except.map, Except.ok.injEq] at h
    subst h
    repeat' apply append_ne_empty_left
    decide

lemma query_google_calendar_list_ne (params : List (String × Json)) :
    query_google_calendar_list params ≠ "" := by
  simp only [query_google_calendar_list]
  repeat' first | apply append_ne_empty_left | split
  all_goals decide

lemma query_google_calendar_get_ne (params : List (String × Json)) :
    query_google_calendar_get params ≠ "" := by
  simp only [query_google_calendar_get]
  repeat' first | apply append_ne_empty_left | split
  all_goals decide

lemma query_google_calendar_update_ne (params : List (String × Json)) :
    query_google_calendar_update params ≠ "" := by
  simp only [query_google_calendar_update]
  repeat' first | apply append_ne_empty_left | split
  all_goals decide

lemma query_google_calendar_delete_ne (params : List (String × Json)) :
    query_google_calendar_delete params ≠ "" := by
  simp only [query_google_calendar_delete]
  repeat' first | apply append_ne_empty_left | split
  all_goals decide

lemma query_gmail_read_ne (params : List (String × Json)) :
    query_gmail_read params ≠ "" := by
  simp only [query_gmail_read]
  repeat' first | apply append_ne_empty_left | split
  all_goals decide

lemma query_gmail_search_ne (params : List (String × Json)) :
    query_gmail_search params ≠ "" := by
  simp only [query_gmail_search]
  repeat' first | apply append_ne_empty_left | split
  all_goals decide

lemma query_google_drive_upload_ne (params : List (String × Json)) :
    query_google_drive_upload params ≠ "" := by
  simp only [query_google_drive_upload]
  repeat' first | apply append_ne_empty_left | split
  all_goals decide

lemma query_google_drive_list_ne (params : List (String × Json)) :
    query_google_drive_list params ≠ "" := by
  simp only [query_google_drive_list]
  repeat' first | apply append_ne_empty_left | split
  all_goals decide

lemma query_google_drive_download_ne (params : List (String × Json)) :
    query_google_drive_download params ≠ "" := by
  simp only [query_google_drive_download]
  repeat' first | apply append_ne_empty_left | split
  all_goals decide

lemma query_google_drive_share_ne (params : List (String × Json)) :
    query_google_drive_share params ≠ "" := by
  simp only [query_google_drive_share]
  repeat' first | apply append_ne_empty_left | split
  all_goals decide

lemma query_google_drive_create_folder_ne (params : List (String × Json)) :
    query_google_drive_create_folder params ≠ "" := by
  simp only [query_google_drive_create_folder]
  repeat' first | apply append_ne_empty_left | split
  all_goals decide

lemma query_google_sheets_read_ne (params : List (String × Json)) :
    query_google_sheets_read params ≠ "" := by
  simp only [query_google_sheets_read]
  repeat' first | apply append_ne_empty_left | split
  all_goals decide

lemma query_google_sheets_write_ne (params : List (String × Json)) :
    query_google_sheets_write params ≠ "" := by
  simp only [query_google_sheets_write]
  repeat' first | apply append_ne_empty_left | split
  all_goals decide

lemma query_google_docs_read_ne (params : List (String × Json)) :
    query_google_docs_read params ≠ "" := by
  simp only [query_google_docs_read]
  repeat' first | apply append_ne_empty_left | split
  all_goals decide

lemma query_google_docs_create_ne (params : List (String × Json)) :
    query_google_docs_create params ≠ "" := by
  simp only [query_google_docs_create]
  repeat' first | apply append_ne_empty_left | split
  all_goals decide

lemma fallbackSentence_ne (tool_id : String) (params : List (String × Json)) :
    fallbackSentence tool_id params ≠ "" := by
  simp only [fallbackSentence]
  repeat' apply append_ne_empty_left
  decide

lemma convert_ok_ne_empty (tool_id : String) (params : List (String × Json)) (s : String)
    (h : convert_params_to_user_query tool_id params = .ok s) : s ≠ "" := by
  unfold convert_params_to_user_query at h
  by_cases c1 : (tool_id == "google_calendar_create") = true
  case pos => rw [if_pos c1] at h; exact query_google_calendar_create_ne _ _ h
  rw [if_neg c1] at h
  by_cases c2 : (tool_id == "google_calendar_list") = true
  case pos =>
    rw [if_pos c2] at h
    simp only [Except.ok.injEq] at h
    subst h
    exact query_google_calendar_list_ne _
  rw [if_neg c2] at h
  by_cases c3 : (tool_id == "google_calendar_get") = true
  case pos =>
    rw [if_pos c3] at h
    simp only [Except.ok.injEq] at h
    subst h
    exact query_google_calendar_get_ne _
  rw [if_neg c3] at h
  by_cases c4 : (tool_id == "google_calendar_update") = true
  case pos =>
    rw [if_pos c4] at h
    simp only [Except.ok.injEq] at h
    subst h
    exact query_google_calendar_update_ne _
  rw [if_neg c4] at h
  by_cases c5 : (tool_id == "google_calendar_delete") = true
  case pos =>
    rw [if_pos c5] at h
    simp only [Except.ok.injEq] at h
    subst h
    exact query_google_calendar_delete_ne _
  rw [if_neg c5] at h
  by_cases c6 : (tool_id == "gmail_send") = true
  case pos => rw [if_pos c6] at h; exact query_gmail_send_ne _ _ h
  rw [if_neg c6] at h
  by_cases c7 : (tool_id == "gmail_read") = true
  case pos =>
    rw [if_pos c7] at h
    simp only [Except.ok.injEq] at h
    subst h
    exact query_gmail_read_ne _
  rw [if_neg c7] at h
  by_cases c8 : (tool_id == "gmail_search") = true
  case pos =>
    rw [if_pos c8] at h
    simp only [Except.ok.injEq] at h
    subst h
    exact query_gmail_search_ne _
  rw [if_neg c8] at h
  by_cases c9 : (tool_id == "gmail_reply") = true
  case pos => rw [if_pos c9] at h; exact query_gmail_reply_ne _ _ h
  rw [if_neg c9] at h
  by_cases c10 : (tool_id == "google_drive_upload") = true
  case pos =>
    rw [if_pos c10] at h
    simp only [Except.ok.injEq] at h
    subst h
    exact query_google_drive_upload_ne _
  rw [if_neg c10] at h
  by_cases c11 : (tool_id == "google_drive_list") = true
  case pos =>
    rw [if_pos c11] at h
    simp only [Except.ok.injEq] at h
    subst h
    exact query_google_drive_list_ne _
  rw [if_neg c11] at h
  by_cases c12 : (tool_id == "google_drive_download") = true
  case pos =>
    rw [if_pos c12] at h
    simp only [Except.ok.injEq] at h
    subst h
    exact query_google_drive_download_ne _
  rw [if_neg c12] at h
  by_cases c13 : (tool_id == "google_drive_share") = true
  case pos =>
    rw [if_pos c13] at h
    simp only [Except.ok.injEq] at h
    subst h
    exact query_google_drive_share_ne _
  rw [if_neg c13] at h
  by_cases c14 : (tool_id == "google_drive_create_folder") = true
  case pos =>
    rw [if_pos c14] at h
    simp only [Except.ok.injEq] at h
    subst h
    exact query_google_drive_create_folder_ne _
  rw [if_neg c14] at h
  by_cases c15 : (tool_id == "google_sheets_read") = true
  case pos =>
    rw [if_pos c15] at h
    simp only [Except.ok.injEq] at h
    subst h
    exact query_google_sheets_read_ne _
  rw [if_neg c15] at h
  by_cases c16 : (tool_id == "google_sheets_write") = true
  case pos =>
    rw [if_pos c16] at h
    simp only [Except.ok.injEq] at h
    subst h
    exact query_google_sheets_write_ne _
  rw [if_neg c16] at h
  by_cases c17 : (tool_id == "google_docs_read") = true
  case pos =>
    rw [if_pos c17] at h
    simp only [Except.ok.injEq] at h
    subst h
    exact query_google_docs_read_ne _
  rw [if_neg c17] at h
  by_cases c18 : (tool_id == "google_docs_create") = true
  case pos =>
    rw [if_pos c18] at h
    simp only [Except.ok.injEq] at h
    subst h
    exact query_google_docs_create_ne _
  rw [if_neg c18] at h
  simp only [Except.ok.injEq] at h
  subst h
  exact fallbackSentence_ne _ _

lemma handled_subset_registry : ∀ t ∈ handledToolIds, t ∈ registryKeys := by
  decide

lemma convert_of_not_handled (tool_id : String) (params : List (String × Json))
    (h : tool_id ∉ handledToolIds) :
    convert_params_to_user_query tool_id params = .ok (fallbackSentence tool_id params) := by
  have h1 : tool_id ≠ "google_calendar_create" := fun e => h (by rw [e]; decide)
  have h2 : tool_id ≠ "google_calendar_list" := fun e => h (by rw [e]; decide)
  have h3 : tool_id ≠ "google_calendar_get" := fun e => h (by rw [e]; decide)
  have h4 : tool_id ≠ "google_calendar_update" := fun e => h (by rw [e]; decide)
  have h5 : tool_id ≠ "google_calendar_delete" := fun e => h (by rw [e]; decide)
  have h6 : tool_id ≠ "gmail_send" := fun e => h (by rw [e]; decide)
  have h7 : tool_id ≠ "gmail_read" := fun e => h (by rw [e]; decide)
  have h8 : tool_id ≠ "gmail_search" := fun e => h (by rw [e]; decide)
  have h9 : tool_id ≠ "gmail_reply" := fun e => h (by rw [e]; decide)
  have h10 : tool_id ≠ "google_drive_upload" := fun e => h (by rw [e]; decide)
  have h11 : tool_id ≠ "google_drive_list" := fun e => h (by rw [e]; decide)
  have h12 : tool_id ≠ "google_drive_download" := fun e => h (by rw [e]; decide)
  have h13 : tool_id ≠ "google_drive_share" := fun e => h (by rw [e]; decide)
  have h14 : tool_id ≠ "google_drive_create_folder" := fun e => h (by rw [e]; decide)
  have h15 : tool_id ≠ "google_sheets_read" := fun e => h (by rw [e]; decide)
  have h16 : tool_id ≠ "google_sheets_write" := fun e => h (by rw [e]; decide)
  have h17 : tool_id ≠ "google_docs_read" := fun e => h (by rw [e]; decide)
  have h18 : tool_id ≠ "google_docs_create" := fun e => h (by rw [e]; decide)
  unfold convert_params_to_user_query
  rw [if_neg (fun hc => h1 (eq_of_beq hc))]
  rw [if_neg (fun hc => h2 (eq_of_beq hc))]
  rw [if_neg (fun hc => h3 (eq_of_beq hc))]
  rw [if_neg (fun hc => h4 (eq_of_beq hc))]
  rw [if_neg (fun hc => h5 (eq_of_beq hc))]
  rw [if_neg (fun hc => h6 (eq_of_beq hc))]
  rw [if_neg (fun hc => h7 (eq_of_beq hc))]
  rw [if_neg (fun hc => h8 (eq_of_beq hc))]
  rw [if_neg (fun hc => h9 (eq_of_beq hc))]
  rw [if_neg (fun hc => h10 (eq_of_beq hc))]
  rw [if_neg (fun hc => h11 (eq_of_beq hc))]
  rw [if_neg (fun hc => h12 (eq_of_beq hc))]
  rw [if_neg (fun hc => h13 (eq_of_beq hc))]
  rw [if_neg (fun hc => h14 (eq_of_beq hc))]
  rw [if_neg (fun hc => h15 (eq_of_beq hc))]
  rw [if_neg (fun hc => h16 (eq_of_beq hc))]
  rw [if_neg (fun hc => h17 (eq_of_beq hc))]
  rw [if_neg (fun hc => h18 (eq_of_beq hc))]

lemma gmail_send_body_clause_str (q s : String) :
    gmail_send_body_clause q (Json.str s) =
      .ok (if s = "" then q
        else if s.length > 100 then q ++ " and body: " ++ s.take 100 ++ "..."
        else q ++ " and body: " ++ s) := by
  by_cases hs : s = ""
  · subst hs; rfl
  · have ht : pyTruthy (Json.str s) = true := by simp [pyTruthy, hs]
    unfold gmail_send_body_clause
    rw [if_pos ht]
    simp only [pyLen, if_neg hs]
    by_cases hl : s.length > 100
    · simp only [if_pos hl, pySliceTake]
      rfl
    · simp only [if_neg hl]
      rfl

/-! ## Claims -/

/-- C1, counterexample: the claim that the Query Synthesizer never raises for
any `params` mapping is false on the code: `gmail_send` with a numeric `body`
reaches `len(body)` and raises `TypeError`, although `gmail_send` is in the
registry. -/
theorem convert_raises_on_numeric_body :
    "gmail_send" ∈ registryKeys ∧
    (convert_params_to_user_query "gmail_send" [("body", Json.num 1)]).isOk = false :=
  ⟨by decide, by rfl⟩

/-- C1 (amended): whenever the Query Synthesizer returns for a registry tool
(indeed for any tool identifier), the returned query is a non-empty string;
and it never raises when parameters are missing — on the empty `params`
mapping it succeeds for every registry tool (defaults apply). It can raise
`TypeError` when a present parameter has an unexpected type (see the
counterexample). -/
theorem convert_nonempty_and_total_on_defaults :
    (∀ tool_id params s, convert_params_to_user_query tool_id params = .ok s → s ≠ "") ∧
    (∀ tool_id, tool_id ∈ registryKeys →
      (convert_params_to_user_query tool_id []).isOk = true) := by
  refine ⟨fun tool_id params s h => convert_ok_ne_empty tool_id params s h, ?_⟩
  decide

/-- C1 witness: instantiates both conjuncts at concrete inputs. -/
theorem convert_nonempty_and_total_on_defaults_witness :
    (convert_params_to_user_query "gmail_send" []).isOk = true ∧
    "Get calendar event with ID: 42" ≠ "" :=
  ⟨convert_nonempty_and_total_on_defaults.2 "gmail_send" (by decide),
   convert_nonempty_and_total_on_defaults.1 "google_calendar_get"
     [("eventId", Json.str "42")] "Get calendar event with ID: 42" (by rfl)⟩

/-- C6, counterexample: `google_calendar_quick_add` is in the registry, yet
the Query Synthesizer produces the generic JSON-serializing fallback sentence
for it — the fallback is not reserved to identifiers outside the registry. -/
theorem registry_tool_falls_back_to_generic :
    "google_calendar_quick_add" ∈ registryKeys ∧
    convert_params_to_user_query "google_calendar_quick_add" [] =
      .ok "Execute google_calendar_quick_add with parameters: \x7b\x7d" :=
  ⟨by decide, by rfl⟩

/-- C6 (amended): the Query Synthesizer has a dedicated formatting rule for
exactly the 18 identifiers in `handledToolIds`, all of which are in the
registry; the 9 remaining registry identifiers (`google_calendar_quick_add`,
`google_calendar_freebusy`, `gmail_draft`, `gmail_labels`,
`google_drive_move`, `google_drive_delete`, `google_sheets_update`,
`google_sheets_append`, `google_docs_write`) and every identifier outside the
registry produce the generic JSON-serializing fallback sentence; on handled
identifiers the result differs from the fallback sentence. -/
theorem convert_rule_coverage :
    (∀ t ∈ handledToolIds, t ∈ registryKeys) ∧
    registryKeys.filter (fun t => !handledToolIds.contains t) =
      ["google_calendar_quick_add", "google_calendar_freebusy", "gmail_draft",
       "gmail_labels", "google_drive_move", "google_drive_delete",
       "google_sheets_update", "google_sheets_append", "google_docs_write"] ∧
    (∀ tool_id params, tool_id ∉ handledToolIds →
      convert_params_to_user_query tool_id params = .ok (fallbackSentence tool_id params)) ∧
    (∀ t ∈ handledToolIds,
      (convert_params_to_user_query t []).toOption ≠ some (fallbackSentence t [])) := by
  refine ⟨by decide, by decide,
    fun tool_id params h => convert_of_not_handled tool_id params h, by decide⟩

/-- C6 witness: instantiates the quantified conjuncts at concrete inputs. -/
theorem convert_rule_coverage_witness :
    convert_params_to_user_query "gmail_draft" [("x", Json.num 2)] =
      .ok (fallbackSentence "gmail_draft" [("x", Json.num 2)]) ∧
    "google_calendar_create" ∈ registryKeys ∧
    (convert_params_to_user_query "google_calendar_create" []).toOption ≠
      some (fallbackSentence "google_calendar_create" []) :=
  ⟨convert_rule_coverage.2.2.1 "gmail_draft" [("x", Json.num 2)] (by decide),
   convert_rule_coverage.1 "google_calendar_create" (by decide),
   convert_rule_coverage.2.2.2 "google_calendar_create" (by decide)⟩

/-- C7, counterexample: a `gmail_reply` body of 11 characters (≤ 100) is
still followed by the ellipsis marker — the claim that body-like fields are
included without an ellipsis marker when 100 characters or shorter is false
for `reply_body`. -/
theorem gmail_reply_short_body_gets_ellipsis :
    ("short reply").length ≤ 100 ∧
    convert_params_to_user_query "gmail_reply" [("reply_body", Json.str "short reply")] =
      .ok "Reply to email from  with subject \x27\x27 and reply: short reply..." :=
  ⟨by decide, by rfl⟩

/-- C7 (amended): `gmail_send` bodies follow the stated rule — truncated to
exactly the first 100 characters plus an ellipsis marker when longer than
100, included unmodified without a marker when 100 or shorter; the
150-character body yields exactly the first 100 characters plus the marker.
`gmail_reply`, however, always truncates `reply_body` to its first 100
characters and always appends the ellipsis marker, even when the body is 100
characters or shorter. -/
theorem gmail_body_truncation (s : String) :
    (convert_params_to_user_query "gmail_send" [("body", Json.str s)] =
      .ok (if s = "" then "Send email to  with subject \x27\x27"
        else if s.length > 100 then
          "Send email to  with subject \x27\x27" ++ " and body: " ++ s.take 100 ++ "..."
        else "Send email to  with subject \x27\x27" ++ " and body: " ++ s)) ∧
    (convert_params_to_user_query "gmail_reply" [("reply_body", Json.str s)] =
      .ok ("Reply to email from  with subject \x27\x27 and reply: " ++ s.take 100 ++ "...")) ∧
    (convert_params_to_user_query "gmail_send"
        [("body", Json.str (String.mk (List.replicate 150 'a')))] =
      .ok ("Send email to  with subject \x27\x27 and body: " ++
        String.mk (List.replicate 100 'a') ++ "...")) := by
  refine ⟨?_, ?_, ?_⟩
  · have h1 : convert_params_to_user_query "gmail_send" [("body", Json.str s)] =
        (gmail_send_body_clause "Send email to  with subject \x27\x27"
          (Json.str s)).map (fun q2 => q2) := rfl
    rw [h1, gmail_send_body_clause_str]
    rfl
  · have h2 : convert_params_to_user_query "gmail_reply" [("reply_body", Json.str s)] =
        (pySliceTake 100 (Json.str s)).map (fun rb =>
          "Reply to email from  with subject \x27\x27 and reply: " ++ pyStr rb ++ "...") := rfl
    rw [h2]
    rfl
  · rfl

/-- C8: for every tool identifier not in the registry (hence with no
dedicated branch), the Query Synthesizer returns exactly the fallback
sentence containing the literal identifier and the `json.dumps` rendering of
`params`, for every `params` mapping (the serialization is total). -/
theorem convert_unknown_tool_fallback (tool_id : String) (params : List (String × Json))
    (h : tool_id ∉ registryKeys) :
    convert_params_to_user_query tool_id params =
      .ok ("Execute " ++ tool_id ++ " with parameters: " ++ Json.dumps (.obj params)) := by
  have hh : tool_id ∉ handledToolIds := fun hm => h (handled_subset_registry tool_id hm)
  exact convert_of_not_handled tool_id params hh

/-- C8 witness: the fallback sentence at a concrete unknown tool. -/
theorem convert_unknown_tool_fallback_witness :
    convert_params_to_user_query "not_a_real_tool" [("x", Json.num 1)] =
      .ok ("Execute " ++ "not_a_real_tool" ++ " with parameters: " ++
        Json.dumps (.obj [("x", Json.num 1)])) :=
  convert_unknown_tool_fallback "not_a_real_tool" [("x", Json.num 1)] (by decide)

/-- C9: the Result Normalizer is idempotent — a mapping is returned
unchanged, so re-normalizing any normalized result is the identity. -/
theorem parse_crewai_result_idempotent :
    (∀ entries, parse_crewai_result (.dict entries) = entries) ∧
    (∀ result, parse_crewai_result (.dict (parse_crewai_result result)) =
      parse_crewai_result result) :=
  ⟨fun _ => rfl, fun _ => rfl⟩

/-- C10: at the execute endpoint an empty-string `userQuery` is treated
exactly like an absent one — the whole outcome coincides with the
`userQuery = none` outcome, and the query used is the synthesized one; a
non-empty caller-supplied `userQuery` is passed through unchanged. -/
theorem empty_user_query_treated_as_absent :
    (∀ construct kickoff env cache toolId params,
      execute_google_suite_tool construct kickoff env cache
        { toolId := toolId, params := params, userQuery := some "" } =
      execute_google_suite_tool construct kickoff env cache
        { toolId := toolId, params := params, userQuery := none }) ∧
    (∀ toolId params,
      effectiveQuery { toolId := toolId, params := params, userQuery := some "" } =
        convert_params_to_user_query toolId params) ∧
    (∀ toolId params q, q ≠ "" →
      effectiveQuery { toolId := toolId, params := params, userQuery := some q } =
        .ok q) := by
  refine ⟨fun c k env cache t p => rfl, fun t p => rfl, fun t p q hq => ?_⟩
  show (if (q == "") = true then convert_params_to_user_query t p else Except.ok q) =
    Except.ok q
  rw [if_neg (fun hc => hq (eq_of_beq hc))]

/-- C10 witness: a concrete non-empty caller query is passed through. -/
theorem empty_user_query_treated_as_absent_witness :
    effectiveQuery { toolId := "gmail_send", params := [], userQuery := some "do it" } =
      .ok "do it" :=
  empty_user_query_treated_as_absent.2.2 "gmail_send" [] "do it" (by decide)

/-- C3: an execute request whose `toolId` is not in the registry yields the
full envelope with `success = false`, the error string
`"Unknown tool ID: ..."` enumerating the registry's tool identifiers, and
the `available_tools` metadata, as a normal response (HTTP success); the
flow cache is untouched and no flow is constructed or invoked (the outcome
does not depend on the `construct`/`kickoff` oracles at all). -/
theorem execute_unknown_tool
    (construct : String → String → Except String GoogleSuiteFlow)
    (kickoff : GoogleSuiteFlow → KickoffInputs → Except PyExc PyVal)
    (env : Env) (cache : FlowCache) (req : ToolExecuteRequest)
    (h : lookupTool req.toolId = none) :
    execute_google_suite_tool construct kickoff env cache req =
      ⟨⟨false, none,
        some ("Unknown tool ID: " ++ req.toolId ++ ". Available tools: " ++
          pyStr (.arr (registryKeys.map Json.str))),
        some (.unknownTool registryKeys)⟩, cache, []⟩ := by
  unfold execute_google_suite_tool
  rw [h]
  rfl

/-- C3 witness: the unknown-tool outcome at `toolId = "not_a_real_tool"`. -/
theorem execute_unknown_tool_witness :
    execute_google_suite_tool (fun n k => .ok ⟨n, k⟩) (fun _ _ => .ok (.str "done")) [] []
      { toolId := "not_a_real_tool", params := [], userQuery := none } =
      ⟨⟨false, none,
        some ("Unknown tool ID: " ++ "not_a_real_tool" ++ ". Available tools: " ++
          pyStr (.arr (registryKeys.map Json.str))),
        some (.unknownTool registryKeys)⟩, [], []⟩ :=
  execute_unknown_tool _ _ _ _ _ rfl

/-- C2: when the `toolId` is registered (mapped to `m`), the query step
yields `uq` and the flow singleton is obtained, the endpoint invokes the
flow exactly once, with the bundle `{user_query, crew_name, flow_name}`
where `crew_name = flow_name = m`; and `uq` is the caller-supplied query
when that is non-empty, otherwise the synthesized one. -/
theorem execute_invokes_flow_once_with_bundle
    (construct : String → String → Except String GoogleSuiteFlow)
    (kickoff : GoogleSuiteFlow → KickoffInputs → Except PyExc PyVal)
    (env : Env) (cache : FlowCache) (req : ToolExecuteRequest)
    (m uq : String) (flow : GoogleSuiteFlow) (cache2 : FlowCache)
    (hm : lookupTool req.toolId = some m)
    (hq : effectiveQuery req = .ok uq)
    (hf : get_google_suite_flow construct env cache = (.ok flow, cache2)) :
    (execute_google_suite_tool construct kickoff env cache req).invocations =
      [(flow, { user_query := uq, crew_name := m, flow_name := m })] ∧
    (req.userQuery = none ∨ req.userQuery = some "" →
      convert_params_to_user_query req.toolId req.params = .ok uq) ∧
    (∀ q, req.userQuery = some q → q ≠ "" → uq = q) := by
  refine ⟨?_, ?_, ?_⟩
  · simp only [execute_google_suite_tool, hm, hq, hf, Option.isNone_some,
      Bool.false_eq_true, if_false, Option.getD_some]
    cases hk : kickoff flow { user_query := uq, crew_name := m, flow_name := m } <;>
      simp [hk]
  · intro h0
    unfold effectiveQuery at hq
    rcases h0 with h0 | h0 <;> (rw [h0] at hq; exact hq)
  · intro q hqq hne
    unfold effectiveQuery at hq
    rw [hqq] at hq
    have hq2 : (if (q == "") = true then
        convert_params_to_user_query req.toolId req.params else Except.ok q) =
        Except.ok uq := hq
    rw [if_neg (fun hc => hne (eq_of_beq hc))] at hq2
    injection hq2 with h2
    exact h2.symm

/-- C2 witness: a concrete successful request invokes `kickoff` once with
the mapped flow name duplicated into both `crew_name` and `flow_name`. -/
theorem execute_invokes_flow_once_with_bundle_witness :
    (execute_google_suite_tool (fun n k => .ok ⟨n, k⟩) (fun _ _ => .ok (.str "done"))
      [("OPENAI_API_KEY", "test-key")] []
      { toolId := "gmail_search", params := [], userQuery := none }).invocations =
      [(⟨"Google Suite Flow", "test-key"⟩,
        { user_query := "Search emails with query: ",
          crew_name := "EMAIL_MANAGEMENT_FLOW",
          flow_name := "EMAIL_MANAGEMENT_FLOW" })] :=
  (execute_invokes_flow_once_with_bundle (fun n k => .ok ⟨n, k⟩)
    (fun _ _ => .ok (.str "done")) [("OPENAI_API_KEY", "test-key")] []
    { toolId := "gmail_search", params := [], userQuery := none } "EMAIL_MANAGEMENT_FLOW"
    "Search emails with query: " ⟨"Google Suite Flow", "test-key"⟩
    [("google_suite", ⟨"Google Suite Flow", "test-key"⟩)] rfl rfl rfl).1

/-- C4: with the cache uninitialized and `OPENAI_API_KEY` unset,
`get_google_suite_flow` raises the configuration `ValueError` and leaves the
cache unchanged; the endpoint reports it as `success = false` with the
`"Configuration error: ..."` message (a normal response, terminal for that
request only), the cache stays uninitialized and the flow is never
invoked. -/
theorem execute_missing_api_key_config_error
    (construct : String → String → Except String GoogleSuiteFlow)
    (kickoff : GoogleSuiteFlow → KickoffInputs → Except PyExc PyVal)
    (env : Env) (cache : FlowCache) (req : ToolExecuteRequest) (m uq : String)
    (henv : envGet env "OPENAI_API_KEY" = none)
    (hc : cacheGet cache "google_suite" = none)
    (hm : lookupTool req.toolId = some m)
    (hq : effectiveQuery req = .ok uq) :
    get_google_suite_flow construct env cache =
      (.error (.valueError "OPENAI_API_KEY not set in environment variables"), cache) ∧
    (execute_google_suite_tool construct kickoff env cache req).response =
      { success := false, output := none,
        error := some ("Configuration error: " ++
          "OPENAI_API_KEY not set in environment variables"),
        metadata := none } ∧
    (execute_google_suite_tool construct kickoff env cache req).cache = cache ∧
    (execute_google_suite_tool construct kickoff env cache req).invocations = [] := by
  have hget : get_google_suite_flow construct env cache =
      (.error (.valueError "OPENAI_API_KEY not set in environment variables"), cache) := by
    simp only [get_google_suite_flow]
    rw [hc, henv]
  refine ⟨hget, ?_, ?_, ?_⟩ <;>
    simp only [execute_google_suite_tool, hm, hq, hget, Option.isNone_some,
      Bool.false_eq_true, if_false, Option.getD_some, handleException]

/-- C4 witness: the configuration-error outcome at a concrete request with
an empty environment and empty cache. -/
theorem execute_missing_api_key_config_error_witness :
    (execute_google_suite_tool (fun n k => .ok ⟨n, k⟩) (fun _ _ => .ok (.str "done")) [] []
      { toolId := "gmail_search", params := [], userQuery := none }).response =
      { success := false, output := none,
        error := some ("Configuration error: " ++
          "OPENAI_API_KEY not set in environment variables"),
        metadata := none } :=
  (execute_missing_api_key_config_error (fun n k => .ok ⟨n, k⟩)
    (fun _ _ => .ok (.str "done")) [] []
    { toolId := "gmail_search", params := [], userQuery := none }
    "EMAIL_MANAGEMENT_FLOW" "Search emails with query: " rfl rfl rfl rfl).2.1

/-- C5: once the flow cache holds the singleton, every later
`get_google_suite_flow` call returns that identical instance and leaves the
cache unchanged, for every constructor oracle and every environment (so no
re-construction and no re-read of the environment), and no execute request
ever removes or replaces the cached handle. -/
theorem flow_singleton_cached_stable (cache : FlowCache) (flow : GoogleSuiteFlow)
    (h : cacheGet cache "google_suite" = some flow) :
    (∀ construct env, get_google_suite_flow construct env cache = (.ok flow, cache)) ∧
    (∀ construct kickoff env req,
      (execute_google_suite_tool construct kickoff env cache req).cache = cache) := by
  have hget : ∀ (construct : String → String → Except String GoogleSuiteFlow) (env : Env),
      get_google_suite_flow construct env cache = (.ok flow, cache) := by
    intro c e
    simp only [get_google_suite_flow]
    rw [h]
  refine ⟨hget, fun c k e req => ?_⟩
  unfold execute_google_suite_tool
  split
  · rfl
  · cases hq : effectiveQuery req with
    | error e2 => rfl
    | ok uq =>
      rw [hget c e]
      split
      · rename_i e2 heq2
        cases heq2
      · rename_i uq2 heq2
        split
        · rename_i e3 cache3 heq3
          simp at heq3
        · rename_i flow3 cache3 heq3
          simp only [Prod.mk.injEq] at heq3
          obtain ⟨hf3, hc3⟩ := heq3
          subst hc3
          split <;> rfl

/-- C5 witness: with the singleton cached, a failing constructor oracle and
an empty environment are never consulted, and an execute request leaves the
cache intact. -/
theorem flow_singleton_cached_stable_witness :
    get_google_suite_flow (fun _ _ => .error "must not be called") []
      [("google_suite", ⟨"Google Suite Flow", "k"⟩)] =
      (.ok ⟨"Google Suite Flow", "k"⟩, [("google_suite", ⟨"Google Suite Flow", "k"⟩)]) ∧
    (execute_google_suite_tool (fun _ _ => .error "must not be called")
      (fun _ _ => .ok (.str "r")) [] [("google_suite", ⟨"Google Suite Flow", "k"⟩)]
      { toolId := "gmail_search", params := [], userQuery := none }).cache =
      [("google_suite", ⟨"Google Suite Flow", "k"⟩)] :=
  ⟨(flow_singleton_cached_stable [("google_suite", ⟨"Google Suite Flow", "k"⟩)]
      ⟨"Google Suite Flow", "k"⟩ rfl).1 (fun _ _ => .error "must not be called") [],
   (flow_singleton_cached_stable [("google_suite", ⟨"Google Suite Flow", "k"⟩)]
      ⟨"Google Suite Flow", "k"⟩ rfl).2 (fun _ _ => .error "must not be called")
      (fun _ _ => .ok (.str "r")) []
      { toolId := "gmail_search", params := [], userQuery := none }⟩

end ApiServer
